import Mathlib

/-!
Verification of the portfolio REST API (server routes) of this repository.

The embedding models the two route modules under src/server/routes
(projects.js and skills.js) over an explicit document store given as a
Lean list.  Mongoose query objects become Boolean predicates, sort
specifications become comparator-based sorting, and skip/limit become
List.drop / List.take.  The auth middleware (src/server/middleware/auth.js)
is not part of the source tree; it is modelled from the spec where needed
and marked as such.

String case-insensitive matching: the source matches names and categories
with an anchored regular expression built from the raw string under the
case-insensitive flag.  For metacharacter-free strings this is exactly
case-insensitive string equality, which is how it is embedded here (ciEq).
-/

namespace Portfolio

/-- ASCII lowering of one character. -/
def lowerChar (c : Char) : Char :=
  if 'A' ≤ c && c ≤ 'Z' then Char.ofNat (c.toNat + 32) else c

/-- Case-insensitive string equality; embeds the anchored case-insensitive
regular-expression equality checks used throughout skills.js. -/
def ciEq (a b : String) : Bool :=
  a.toList.map lowerChar == b.toList.map lowerChar

/-- JavaScript truthiness for an optional string query parameter: an absent
parameter and the empty string are both falsy, so a filter guarded by
if (param) is skipped for both. -/
def truthyStr : Option String → Option String
  | none => none
  | some s => if s == "" then none else some s

/-- Models parseInt(q) || d from projects.js line 12/13: an absent or
non-numeric parameter falls back to the default, and so does an explicit 0
because 0 is falsy in JavaScript. -/
def effNat (o : Option Nat) (d : Nat) : Nat :=
  match o with
  | none => d
  | some 0 => d
  | some n => n

/-- Ceiling division as computed by Math.ceil(total / limit) on natural
inputs with a positive divisor. -/
def ceilNat (t l : Nat) : Nat :=
  (t + l - 1) / l

/-- Insertion of an element into a list sorted by the Boolean comparator. -/
def insertBy (le : α → α → Bool) (a : α) : List α → List α
  | [] => [a]
  | b :: bs => if le a b then a :: b :: bs else b :: insertBy le a bs

/-- Comparator-based insertion sort; embeds the sort stage of a store query. -/
def sortBy (le : α → α → Bool) : List α → List α
  | [] => []
  | a :: as => insertBy le a (sortBy le as)

theorem mem_insertBy (le : α → α → Bool) (a x : α) (l : List α) :
    x ∈ insertBy le a l ↔ x = a ∨ x ∈ l := by
  induction l with
  | nil => simp [insertBy]
  | cons b bs ih =>
    by_cases h : le a b
    · simp [insertBy, h]
    · simp only [insertBy, h, if_neg, Bool.false_eq_true, ite_false, List.mem_cons, ih]
      tauto

theorem mem_sortBy (le : α → α → Bool) (x : α) (l : List α) :
    x ∈ sortBy le l ↔ x ∈ l := by
  induction l with
  | nil => simp [sortBy]
  | cons a as ih =>
    simp [sortBy, mem_insertBy, ih]

theorem length_insertBy (le : α → α → Bool) (a : α) (l : List α) :
    (insertBy le a l).length = l.length + 1 := by
  induction l with
  | nil => simp [insertBy]
  | cons b bs ih =>
    by_cases h : le a b
    · simp [insertBy, h]
    · simp [insertBy, h, ih]

theorem length_sortBy (le : α → α → Bool) (l : List α) :
    (sortBy le l).length = l.length := by
  induction l with
  | nil => simp [sortBy]
  | cons a as ih => simp [sortBy, length_insertBy, ih]

/-- Sequence-level check that the first list starts the second one. -/
def isStartSeq : List Char → List Char → Bool
  | [], _ => true
  | _ :: _, [] => false
  | a :: as, b :: bs => a == b && isStartSeq as bs

/-- Sequence containment, used to embed the document-store full-text match
as a substring test over the text-indexed fields. -/
def containsSeq (needle : List Char) : List Char → Bool
  | [] => needle.isEmpty
  | h :: t => isStartSeq needle (h :: t) || containsSeq needle t

/-! ## Project data model

Project documents, from the Project schema described by the spec (title
unique, publication and featured flags, category, priority sort weight,
creation timestamp).  Fields never consulted by any embedded route
(technology list, URLs, dates beyond the creation timestamp) are omitted. -/

structure Project where
  id : String
  title : String
  slug : String
  description : String
  category : String
  isFeatured : Bool
  isPublished : Bool
  priority : Int
  createdAt : Nat
  deriving Repr, DecidableEq

/-- The text match behind query.search from projects.js line 30: the store
evaluates the search string against the text-indexed fields, embedded here
as containment in title or description. -/
def textMatch (s : String) (p : Project) : Bool :=
  containsSeq s.toList p.title.toList || containsSeq s.toList p.description.toList

/-- Query parameters of GET /projects (projects.js lines 12 and 16). -/
structure ProjectsQuery where
  page : Option Nat := none
  limit : Option Nat := none
  category : Option String := none
  featured : Option String := none
  search : Option String := none
  exclude : Option String := none
  deriving Repr

/-- The query object built by projects.js lines 19 to 36: isPublished is
always required; category, search and exclude are added when truthy; the
featured constraint is added only when the parameter is exactly the string
true. -/
def matchesQuery (q : ProjectsQuery) (p : Project) : Bool :=
  p.isPublished
    && (match truthyStr q.category with
        | some c => p.category == c
        | none => true)
    && (if q.featured == some "true" then p.isFeatured else true)
    && (match truthyStr q.search with
        | some s => textMatch s p
        | none => true)
    && (match truthyStr q.exclude with
        | some e => p.id != e
        | none => true)

/-- Sort specification priority descending then createdAt descending
(projects.js line 39). -/
def projLe (a b : Project) : Bool :=
  b.priority < a.priority || (a.priority == b.priority && decide (b.createdAt ≤ a.createdAt))

structure Pagination where
  page : Nat
  limit : Nat
  total : Nat
  pages : Nat
  deriving Repr, DecidableEq

structure ProjectsListResponse where
  projects : List Project
  pagination : Pagination
  deriving Repr, DecidableEq

/-- Handler of GET /projects (projects.js lines 10 to 59): defaults page 1
and limit 10, filter, sort, skip (page-1)*limit, take limit, and the
pagination metadata with pages computed as the ceiling of total over
limit. -/
def listProjects (q : ProjectsQuery) (st : List Project) : ProjectsListResponse :=
  let page := effNat q.page 1
  let limit := effNat q.limit 10
  let skip := (page - 1) * limit
  let matched := st.filter (matchesQuery q)
  let projects := ((sortBy projLe matched).drop skip).take limit
  let total := matched.length
  { projects := projects
    pagination := { page := page, limit := limit, total := total, pages := ceilNat total limit } }

/-- Handler of GET /projects/featured (projects.js lines 62 to 77): filter
on both flags, same sort, cap of 6, bare list. -/
def featuredProjects (st : List Project) : List Project :=
  (sortBy projLe (st.filter (fun p => p.isPublished && p.isFeatured))).take 6

/-- The 24-character hexadecimal ObjectId shape test of projects.js
line 85. -/
def isHexChar (c : Char) : Bool :=
  c.isDigit || ('a' ≤ c && c ≤ 'f') || ('A' ≤ c && c ≤ 'F')

def isObjectId (s : String) : Bool :=
  s.toList.length == 24 && s.toList.all isHexChar

/-- Handler of GET /projects/:identifier (projects.js lines 80 to 101):
lookup by id when the identifier has ObjectId shape, otherwise by slug,
always requiring isPublished; a miss yields status 404. -/
def getProject (ident : String) (st : List Project) : Nat × Option Project :=
  let q : Project → Bool := fun p =>
    (if isObjectId ident then p.id == ident else p.slug == ident) && p.isPublished
  match st.find? q with
  | none => (404, none)
  | some p => (200, some p)

/-! ## Skill data model -/

/-- Skill documents, from the Skill schema described by the spec: name and
category pair unique ignoring case, level enum, proficiency in 0..100,
icon, color, description, years of experience, visibility flag, order
weight. -/
structure Skill where
  id : String
  name : String
  category : String
  level : String
  proficiency : Nat
  icon : String
  color : String
  description : String
  yearsOfExperience : Nat
  isVisible : Bool
  order : Int
  deriving Repr, DecidableEq

/-- Modelled from the spec: the Skill schema file is not in the source
tree; default field values applied when a create payload omits a field.
The defaults never matter for the properties proved below, which compare
store states and the explicitly set fields only. -/
def defaultSkill (id name category : String) : Skill :=
  { id := id, name := name, category := category, level := "intermediate"
    proficiency := 50, icon := "", color := "", description := ""
    yearsOfExperience := 0, isVisible := true, order := 0 }

/-- The resolved identity that the auth middleware attaches to the request
context: an id and a role flag. -/
structure User where
  id : String
  role : String
  deriving Repr, DecidableEq

/-- Bearer scheme parsing of the Authorization header value. -/
def bearerToken (h : String) : Option String :=
  match h.toList with
  | 'B' :: 'e' :: 'a' :: 'r' :: 'e' :: 'r' :: ' ' :: rest => some (String.mk rest)
  | _ => none

/-- Modelled from the spec: src/server/middleware/auth.js is not in the
source tree.  Per the spec the middleware reads the raw Authorization
header, fails with status 401 when the token is missing, malformed or
invalid, and otherwise attaches the resolved identity (id, role) to the
request context; the role check is not performed here but inside each
handler that needs it.  Valid tokens are given as an explicit token-to-user
table. -/
def authenticate (tokens : List (String × User)) : Option String → Except Nat User
  | none => .error 401
  | some h =>
    match bearerToken h with
    | none => .error 401
    | some t =>
      match tokens.lookup t with
      | none => .error 401
      | some u => .ok u

/-- Runs a stateful handler behind the auth middleware: an authentication
failure returns its status with the store untouched. -/
def runAuthed (tokens : List (String × User)) (h : Option String) (st : σ)
    (k : User → Nat × σ) : Nat × σ :=
  match authenticate tokens h with
  | .error s => (s, st)
  | .ok u => k u

/-! ## Skill route handlers (skills.js) -/

/-- Handler of GET /skills (skills.js lines 20 to 37): only visible skills,
optional case-insensitive category filter, sorted by order weight first and
then by the caller-specified field (name by default). -/
def skillSortKey (field : String) (s : Skill) : String :=
  match field with
  | "name" => s.name
  | "category" => s.category
  | "level" => s.level
  | "icon" => s.icon
  | "color" => s.color
  | "description" => s.description
  | _ => ""

def skillLe (field : String) (a b : Skill) : Bool :=
  a.order < b.order
    || (a.order == b.order && decide (skillSortKey field a ≤ skillSortKey field b))

def listSkills (category : Option String) (sortParam : Option String)
    (st : List Skill) : List Skill :=
  let field := match sortParam with
    | none => "name"
    | some s => s
  let q : Skill → Bool := fun s =>
    s.isVisible
      && (match truthyStr category with
          | some c => ciEq s.category c
          | none => true)
  sortBy (skillLe field) (st.filter q)

/-- Handler of GET /skills/:id (skills.js lines 72 to 88): plain findById
with no visibility filter and no auth; a miss yields status 404. -/
def getSkillById (sid : String) (st : List Skill) : Nat × Option Skill :=
  match st.find? (fun s => s.id == sid) with
  | none => (404, none)
  | some s => (200, some s)

/-- Handler body of GET /skills/admin/all (skills.js lines 55 to 67): role
checked inside the handler, then the whole store with no visibility
filter. -/
def adminAllSkills (u : User) (st : List Skill) : Nat × List Skill :=
  if u.role != "admin" then (403, st)
  else (200, sortBy (skillLe "name") st)

/-- Create payload for POST /skills after the declarative validation chain
(skills.js lines 97 to 127) has passed: name and category are present,
trimmed and non-empty, category belongs to the enum, and each optional
field is either absent or well-formed. -/
structure SkillBody where
  name : String
  category : String
  level : Option String := none
  proficiency : Option Nat := none
  icon : Option String := none
  color : Option String := none
  description : Option String := none
  yearsOfExperience : Option Nat := none
  isVisible : Option Bool := none
  order : Option Int := none
  deriving Repr

/-- The new-skill construction of skills.js lines 159 to 175: mandatory
name and category, optional fields applied only when present so that
omitted fields keep the schema defaults. -/
def mkSkill (b : SkillBody) (newId : String) : Skill :=
  let s := defaultSkill newId b.name b.category
  { s with
    level := b.level.getD s.level
    proficiency := b.proficiency.getD s.proficiency
    icon := b.icon.getD s.icon
    color := b.color.getD s.color
    description := b.description.getD s.description
    yearsOfExperience := b.yearsOfExperience.getD s.yearsOfExperience
    isVisible := b.isVisible.getD s.isVisible
    order := b.order.getD s.order }

/-- The duplicate lookup of skills.js lines 149 to 152: some stored skill
matches both the name and the category case-insensitively. -/
def hasDuplicatePair (name category : String) (st : List Skill) : Bool :=
  st.any (fun s => ciEq s.name name && ciEq s.category category)

/-- Handler body of POST /skills (skills.js lines 129 to 182): role check,
case-insensitive duplicate check against the store with status 400 on
conflict and no insertion, otherwise the new skill is persisted with
status 201. -/
def createSkill (u : User) (b : SkillBody) (newId : String)
    (st : List Skill) : Nat × List Skill :=
  if u.role != "admin" then (403, st)
  else if hasDuplicatePair b.name b.category st then (400, st)
  else (201, st ++ [mkSkill b newId])

/-- JavaScript or-fallback name or skill.name of skills.js lines 252
and 253: the provided value wins unless it is falsy (absent or empty). -/
def jsOr (o : Option String) (d : String) : String :=
  match o with
  | none => d
  | some s => if s == "" then d else s

/-- Update payload for PUT /skills/:id after validation: every field
optional, provided strings trimmed and non-empty, category in the enum. -/
structure SkillUpdateBody where
  name : Option String := none
  category : Option String := none
  level : Option String := none
  proficiency : Option Nat := none
  icon : Option String := none
  color : Option String := none
  description : Option String := none
  yearsOfExperience : Option Nat := none
  isVisible : Option Bool := none
  order : Option Int := none
  deriving Repr

/-- Field application of skills.js lines 267 to 276: each provided field
overwrites the loaded document. -/
def applyUpdate (b : SkillUpdateBody) (s : Skill) : Skill :=
  { s with
    name := b.name.getD s.name
    category := b.category.getD s.category
    level := b.level.getD s.level
    proficiency := b.proficiency.getD s.proficiency
    icon := b.icon.getD s.icon
    color := b.color.getD s.color
    description := b.description.getD s.description
    yearsOfExperience := b.yearsOfExperience.getD s.yearsOfExperience
    isVisible := b.isVisible.getD s.isVisible
    order := b.order.getD s.order }

/-- Handler body of PUT /skills/:id (skills.js lines 225 to 287): role
check, findById with 404 on miss; when name or category is present the
prospective pair is re-checked case-insensitively against every other
document (own id excluded) with status 400 on conflict; otherwise the
updated document is saved back. -/
def updateSkill (u : User) (sid : String) (b : SkillUpdateBody)
    (st : List Skill) : Nat × List Skill :=
  if u.role != "admin" then (403, st)
  else
    match st.find? (fun s => s.id == sid) with
    | none => (404, st)
    | some skill =>
      let conflict :=
        if b.name.isSome || b.category.isSome then
          let checkName := jsOr b.name skill.name
          let checkCategory := jsOr b.category skill.category
          st.any (fun s =>
            s.id != sid && ciEq s.name checkName && ciEq s.category checkCategory)
        else false
      if conflict then (400, st)
      else (200, st.map (fun s => if s.id == sid then applyUpdate b skill else s))

/-- Handler body of DELETE /skills/:id (skills.js lines 293 to 314): role
check, findById with 404 on miss, then removal by id. -/
def deleteSkill (u : User) (sid : String) (st : List Skill) : Nat × List Skill :=
  if u.role != "admin" then (403, st)
  else
    match st.find? (fun s => s.id == sid) with
    | none => (404, st)
    | some _ => (200, st.filter (fun s => s.id != sid))

/-! ## Bulk skill creation (skills.js lines 319 to 368) -/

/-- Raw element of the bulk payload: nothing is guaranteed present because
POST /skills/bulk runs no declarative validation chain, only the in-handler
loop. -/
structure BulkSkill where
  name : Option String := none
  category : Option String := none
  level : Option String := none
  proficiency : Option Int := none
  icon : Option String := none
  color : Option String := none
  description : Option String := none
  isVisible : Option Bool := none
  order : Option Int := none
  deriving Repr, DecidableEq

/-- JavaScript falsiness of an optional string field: absent or empty. -/
def isFalsyStr : Option String → Bool
  | none => true
  | some s => s == ""

inductive BulkErr where
  | missingField
  | badProficiency
  deriving Repr, DecidableEq

/-- Per-element checks of the validation loop (skills.js lines 332 to 354),
in source order: missing name or category first, then the proficiency
range. -/
def elemError (s : BulkSkill) : Option BulkErr :=
  if isFalsyStr s.name || isFalsyStr s.category then some .missingField
  else if (match s.proficiency with
           | some p => p < 0 || p > 100
           | none => false) then some .badProficiency
  else none

/-- The loop returns at the first failing element, before any write. -/
def firstBulkError : List BulkSkill → Option BulkErr
  | [] => none
  | s :: rest =>
    match elemError s with
    | some e => some e
    | none => firstBulkError rest

/-- String trimming applied inside the validation loop (skills.js
lines 341 to 345). -/
def trimBulk (s : BulkSkill) : BulkSkill :=
  { s with
    name := s.name.map String.trim
    category := s.category.map String.trim
    icon := s.icon.map String.trim
    description := s.description.map String.trim
    color := s.color.map String.trim }

/-- Document built from a bulk element, missing fields keeping schema
defaults. -/
def bulkToSkill (b : BulkSkill) (newId : String) : Skill :=
  let s := defaultSkill newId (b.name.getD "") (b.category.getD "")
  { s with
    level := b.level.getD s.level
    proficiency := match b.proficiency with
      | some p => p.toNat
      | none => s.proficiency
    icon := b.icon.getD s.icon
    color := b.color.getD s.color
    description := b.description.getD s.description
    isVisible := b.isVisible.getD s.isVisible
    order := b.order.getD s.order }

/-- Modelled from the spec: Skill.insertMany with ordered false and the
unique case-insensitive (name, category) index, both outside the source
tree.  Insertion continues past individual duplicate conflicts and reports
whether any element was rejected. -/
def insertManyCI : List BulkSkill → List String → List Skill → List Skill × Bool
  | [], _, st => (st, false)
  | b :: bs, ids, st =>
    let sk := bulkToSkill b (ids.headD "")
    if hasDuplicatePair sk.name sk.category st then
      let r := insertManyCI bs ids.tail st
      (r.1, true)
    else
      insertManyCI bs ids.tail (st ++ [sk])

/-- Handler body of POST /skills/bulk (skills.js lines 319 to 368): role
check, array-shape check, whole-loop validation before any insert, then the
non-atomic multi-insert; a store duplicate report maps to status 400 with
the partial inserts kept, otherwise status 201. -/
def bulkCreateSkills (u : User) (skills : Option (List BulkSkill))
    (newIds : List String) (st : List Skill) : Nat × List Skill :=
  if u.role != "admin" then (403, st)
  else
    match skills with
    | none => (400, st)
    | some l =>
      if l.length == 0 then (400, st)
      else
        match firstBulkError l with
        | some _ => (400, st)
        | none =>
          let r := insertManyCI (l.map trimBulk) newIds st
          (if r.2 then 400 else 201, r.1)

/-! ## Project admin handlers (projects.js lines 104 to 185)

These handler bodies run behind the auth middleware but, unlike every
admin handler in skills.js, never read the role of the resolved identity:
the source contains no role check in any of them. -/

/-- Handler body of POST /projects (projects.js lines 104 to 122): the
aggregated validation result gates the handler, a duplicate unique title
surfaces as status 400, otherwise the document is persisted with
status 201.  No role check appears in the source. -/
def createProject (errorsEmpty : Bool) (p : Project) (st : List Project) :
    Nat × List Project :=
  if !errorsEmpty then (400, st)
  else if st.any (fun q => q.title == p.title) then (400, st)
  else (201, st ++ [p])

/-- Handler body of PUT /projects/:id (projects.js lines 125 to 150):
validation gate, findByIdAndUpdate with 404 on miss, duplicate unique
title surfacing as status 400.  No role check appears in the source. -/
def updateProject (errorsEmpty : Bool) (pid : String) (b : Project)
    (st : List Project) : Nat × List Project :=
  if !errorsEmpty then (400, st)
  else
    match st.find? (fun q => q.id == pid) with
    | none => (404, st)
    | some _ =>
      if st.any (fun q => q.id != pid && q.title == b.title) then (400, st)
      else (200, st.map (fun q => if q.id == pid then { b with id := pid } else q))

/-- Handler body of DELETE /projects/:id (projects.js lines 153 to 171):
validation gate, findByIdAndDelete with 404 on miss.  No role check
appears in the source. -/
def deleteProject (errorsEmpty : Bool) (pid : String) (st : List Project) :
    Nat × List Project :=
  if !errorsEmpty then (400, st)
  else
    match st.find? (fun q => q.id == pid) with
    | none => (404, st)
    | some _ => (200, st.filter (fun q => q.id != pid))

/-- Comparator for the admin listing sort createdAt descending
(projects.js line 177). -/
def projCreatedLe (a b : Project) : Bool :=
  decide (b.createdAt ≤ a.createdAt)

/-- Handler body of GET /projects/admin/all (projects.js lines 174
to 185): the whole store, unfiltered, sorted by recency.  No role check
appears in the source. -/
def adminAllProjects (st : List Project) : Nat × List Project :=
  (200, sortBy projCreatedLe st)

/-! ## Full admin routes: auth middleware composed with the handler. -/

def postProjectsRoute (tokens : List (String × User)) (h : Option String)
    (errorsEmpty : Bool) (p : Project) (st : List Project) : Nat × List Project :=
  runAuthed tokens h st (fun _ => createProject errorsEmpty p st)

def putProjectRoute (tokens : List (String × User)) (h : Option String)
    (errorsEmpty : Bool) (pid : String) (b : Project) (st : List Project) :
    Nat × List Project :=
  runAuthed tokens h st (fun _ => updateProject errorsEmpty pid b st)

def deleteProjectRoute (tokens : List (String × User)) (h : Option String)
    (errorsEmpty : Bool) (pid : String) (st : List Project) : Nat × List Project :=
  runAuthed tokens h st (fun _ => deleteProject errorsEmpty pid st)

def adminAllProjectsRoute (tokens : List (String × User)) (h : Option String)
    (st : List Project) : Nat × List Project :=
  runAuthed tokens h st (fun _ => adminAllProjects st)

def postSkillsRoute (tokens : List (String × User)) (h : Option String)
    (b : SkillBody) (newId : String) (st : List Skill) : Nat × List Skill :=
  runAuthed tokens h st (fun u => createSkill u b newId st)

def putSkillRoute (tokens : List (String × User)) (h : Option String)
    (sid : String) (b : SkillUpdateBody) (st : List Skill) : Nat × List Skill :=
  runAuthed tokens h st (fun u => updateSkill u sid b st)

def deleteSkillRoute (tokens : List (String × User)) (h : Option String)
    (sid : String) (st : List Skill) : Nat × List Skill :=
  runAuthed tokens h st (fun u => deleteSkill u sid st)

def adminAllSkillsRoute (tokens : List (String × User)) (h : Option String)
    (st : List Skill) : Nat × List Skill :=
  runAuthed tokens h st (fun u => adminAllSkills u st)

def bulkSkillsRoute (tokens : List (String × User)) (h : Option String)
    (skills : Option (List BulkSkill)) (newIds : List String) (st : List Skill) :
    Nat × List Skill :=
  runAuthed tokens h st (fun u => bulkCreateSkills u skills newIds st)

/-! ## Concrete sample data, used to exercise the theorems on closed
inputs. -/

def pA : Project :=
  { id := "aaaaaaaaaaaaaaaaaaaaaaaa", title := "Alpha", slug := "alpha"
    description := "first demo", category := "web", isFeatured := true
    isPublished := true, priority := 2, createdAt := 10 }

def pB : Project :=
  { id := "bbbbbbbbbbbbbbbbbbbbbbbb", title := "Beta", slug := "beta"
    description := "second demo", category := "web", isFeatured := false
    isPublished := true, priority := 1, createdAt := 5 }

def pC : Project :=
  { id := "cccccccccccccccccccccccc", title := "Gamma", slug := "gamma"
    description := "third demo", category := "app", isFeatured := true
    isPublished := false, priority := 3, createdAt := 8 }

def stD : List Project := [pA, pB, pC]

def pNew : Project :=
  { id := "dddddddddddddddddddddddd", title := "Delta", slug := "delta"
    description := "fresh demo", category := "web", isFeatured := false
    isPublished := false, priority := 0, createdAt := 20 }

def skA : Skill := defaultSkill "s1" "React" "frontend"

def skHidden : Skill :=
  { defaultSkill "s2" "SecretTool" "tools" with isVisible := false }

def stS : List Skill := [skA, skHidden]

def skVue : Skill := defaultSkill "s2" "Vue" "frontend"

def stT : List Skill := [skA, skVue]

def adminU : User := { id := "u1", role := "admin" }

def userU : User := { id := "u2", role := "user" }

def demoTokens : List (String × User) :=
  [("tok-admin", adminU), ("tok-user", userU)]

def bkGood : BulkSkill := { name := some "Go", category := some "backend" }

def bkNoCat : BulkSkill := { name := some "Rust" }

/-! ## Shared lemmas -/

theorem matchesQuery_published {q : ProjectsQuery} {p : Project}
    (h : matchesQuery q p = true) : p.isPublished = true := by
  unfold matchesQuery at h
  simp only [Bool.and_eq_true] at h
  exact h.1.1.1.1

theorem getProjectPred_spec {ident : String} {p : Project} :
    (((if isObjectId ident then p.id == ident else p.slug == ident) && p.isPublished) = true) ↔
    ((if isObjectId ident then p.id = ident else p.slug = ident) ∧ p.isPublished = true) := by
  cases hio : isObjectId ident <;> simp [hio, beq_iff_eq]

/-! ## Claim theorems -/

/-- C5: GET /projects/featured returns at most 6 items, and every returned
item is both published and featured; an unpublished project is never
included even when its featured flag is set. -/
theorem featured_cap_and_flags (st : List Project) :
    (featuredProjects st).length ≤ 6 ∧
    ∀ p ∈ featuredProjects st, p.isPublished = true ∧ p.isFeatured = true := by
  constructor
  · unfold featuredProjects
    simp [List.length_take]
  · intro p hp
    unfold featuredProjects at hp
    have hmem : p ∈ st.filter (fun p => p.isPublished && p.isFeatured) :=
      (mem_sortBy _ _ _).1 (List.take_subset _ _ hp)
    have hpred := List.of_mem_filter hmem
    simp only [Bool.and_eq_true] at hpred
    exact hpred

theorem featured_cap_and_flags_witness :
    (featuredProjects stD).length ≤ 6 ∧ (pA.isPublished = true ∧ pA.isFeatured = true) :=
  ⟨(featured_cap_and_flags stD).1, (featured_cap_and_flags stD).2 pA (by decide)⟩

/-- C6: every project returned by the public GET /projects listing, under
any combination of category, featured, search, exclude, page and limit
parameters, has isPublished set. -/
theorem projects_list_only_published (q : ProjectsQuery) (st : List Project) :
    ∀ p ∈ (listProjects q st).projects, p.isPublished = true := by
  intro p hp
  simp only [listProjects] at hp
  have hmem : p ∈ st.filter (matchesQuery q) :=
    (mem_sortBy _ _ _).1
      (List.drop_subset _ _ (List.take_subset _ _ hp))
  exact matchesQuery_published (List.of_mem_filter hmem)

theorem projects_list_only_published_witness : pA.isPublished = true :=
  projects_list_only_published {} stD pA (by decide)

/-- C8: GET /projects defaults to page 1 and limit 10 when the parameters
are absent, skips (page-1)*limit items of the sorted filtered store,
returns at most limit items, and the pagination metadata echoes page and
limit with total the number of matches and pages the ceiling of total over
limit. -/
theorem projects_list_pagination_contract (q : ProjectsQuery) (st : List Project) :
    ((q.page = none → (listProjects q st).pagination.page = 1) ∧
     (q.limit = none → (listProjects q st).pagination.limit = 10)) ∧
    (listProjects q st).projects =
      ((sortBy projLe (st.filter (matchesQuery q))).drop
          (((listProjects q st).pagination.page - 1) * (listProjects q st).pagination.limit)).take
        (listProjects q st).pagination.limit ∧
    (listProjects q st).projects.length ≤ (listProjects q st).pagination.limit ∧
    (listProjects q st).pagination.total = (st.filter (matchesQuery q)).length ∧
    (listProjects q st).pagination.pages =
      (listProjects q st).pagination.total ⌈/⌉ (listProjects q st).pagination.limit := by
  refine ⟨⟨fun h => by simp [listProjects, h, effNat],
          fun h => by simp [listProjects, h, effNat]⟩, rfl, ?_, rfl, ?_⟩
  · simp only [listProjects]
    simp [List.length_take]
  · show ceilNat _ _ = _
    rw [Nat.ceilDiv_eq_add_pred_div]
    rfl

theorem projects_list_pagination_contract_witness :
    (listProjects {} stD).pagination.page = 1 ∧ (listProjects {} stD).pagination.limit = 10 :=
  ⟨(projects_list_pagination_contract {} stD).1.1 rfl,
   (projects_list_pagination_contract {} stD).1.2 rfl⟩

/-- C10: the featured constraint of GET /projects is added only when the
parameter is exactly the string true; for any other value, including
false, the response is the one of the same query with no featured
parameter at all, so both featured and non-featured published projects are
returned. -/
theorem featured_filter_only_literal_true (q : ProjectsQuery) (st : List Project)
    (h : q.featured ≠ some "true") :
    listProjects q st = listProjects { q with featured := none } st := by
  have hb : (q.featured == some "true") = false := beq_eq_false_iff_ne.2 h
  have hm : ∀ p ∈ st, matchesQuery q p = matchesQuery { q with featured := none } p := by
    intro p _
    simp [matchesQuery, hb]
  simp only [listProjects]
  rw [List.filter_congr hm]

theorem featured_filter_only_literal_true_witness :
    listProjects { featured := some "false" } stD =
      listProjects { ({ featured := some "false" } : ProjectsQuery) with featured := none } stD ∧
    pA ∈ (listProjects { featured := some "false" } stD).projects ∧
    pB ∈ (listProjects { featured := some "false" } stD).projects :=
  ⟨featured_filter_only_literal_true { featured := some "false" } stD (by decide),
   by decide, by decide⟩

/-- C2: GET /projects/:identifier resolves a 24-character hexadecimal
identifier by id and any other identifier by slug, in both cases requiring
isPublished, and answers status 404 when no such published project
exists. -/
theorem get_project_identifier_resolution (ident : String) (st : List Project) :
    (∀ p, getProject ident st = (200, some p) →
      p.isPublished = true ∧
      (if isObjectId ident then p.id = ident else p.slug = ident)) ∧
    ((∀ p ∈ st, ¬((if isObjectId ident then p.id = ident else p.slug = ident) ∧
        p.isPublished = true)) →
      getProject ident st = (404, none)) := by
  constructor
  · intro p hp
    simp only [getProject] at hp
    cases hf : st.find? (fun p =>
        (if isObjectId ident then p.id == ident else p.slug == ident) && p.isPublished) with
    | none => rw [hf] at hp; simp at hp
    | some p0 =>
      rw [hf] at hp
      simp only [Prod.mk.injEq, Option.some.injEq] at hp
      have hq := List.find?_some hf
      rw [hp.2] at hq
      have hs := getProjectPred_spec.1 hq
      exact ⟨hs.2, hs.1⟩
  · intro hall
    simp only [getProject]
    have hn : st.find? (fun p =>
        (if isObjectId ident then p.id == ident else p.slug == ident) && p.isPublished) = none := by
      rw [List.find?_eq_none]
      intro p hpmem hq
      exact hall p hpmem ⟨(getProjectPred_spec.1 hq).1, (getProjectPred_spec.1 hq).2⟩
    rw [hn]

theorem get_project_identifier_resolution_witness :
    (pA.isPublished = true ∧
      (if isObjectId "alpha" then pA.id = "alpha" else pA.slug = "alpha")) ∧
    getProject "ffffffffffffffffffffffff" stD = (404, none) :=
  ⟨(get_project_identifier_resolution "alpha" stD).1 pA (by decide),
   (get_project_identifier_resolution "ffffffffffffffffffffffff" stD).2 (by decide)⟩

/-- C3: when two validated create requests carry (name, category) pairs
equal ignoring case, a successful first create makes the second fail with
the conflict status 400 and leave the store unchanged. -/
theorem skill_create_case_insensitive_conflict
    (u1 u2 : User) (b1 b2 : SkillBody) (id1 id2 : String) (st st1 : List Skill)
    (hu1 : u1.role = "admin") (hu2 : u2.role = "admin")
    (hname : ciEq b1.name b2.name = true) (hcat : ciEq b1.category b2.category = true)
    (h1 : createSkill u1 b1 id1 st = (201, st1)) :
    createSkill u2 b2 id2 st1 = (400, st1) := by
  unfold createSkill at h1 ⊢
  rw [hu1] at h1
  rw [hu2]
  simp only [bne_self_eq_false, Bool.false_eq_true, if_false] at h1 ⊢
  by_cases hdup : hasDuplicatePair b1.name b1.category st = true
  · rw [if_pos hdup] at h1
    simp at h1
  · rw [if_neg hdup] at h1
    injection h1 with h201 hst
    subst hst
    have hnew : hasDuplicatePair b2.name b2.category (st ++ [mkSkill b1 id1]) = true := by
      unfold hasDuplicatePair
      rw [List.any_eq_true]
      refine ⟨mkSkill b1 id1, by simp, ?_⟩
      simp only [mkSkill, defaultSkill, Bool.and_eq_true]
      exact ⟨hname, hcat⟩
    rw [if_pos hnew]

theorem skill_create_case_insensitive_conflict_witness :
    createSkill adminU { name := "REACT", category := "frontend" } "s9"
        [mkSkill { name := "React", category := "frontend" } "s1"] =
      (400, [mkSkill { name := "React", category := "frontend" } "s1"]) :=
  skill_create_case_insensitive_conflict adminU adminU
    { name := "React", category := "frontend" } { name := "REACT", category := "frontend" }
    "s1" "s9" [] [mkSkill { name := "React", category := "frontend" } "s1"]
    rfl rfl (by decide) (by decide) (by decide)

/-- C9: a skill can be fetched through GET /skills/:id with no
authentication even when its visibility flag is off, although the public
GET /skills listing never returns it. -/
theorem hidden_skill_retrievable_by_id (sid : String) (s : Skill)
    (cat sortP : Option String) (st : List Skill)
    (hfind : st.find? (fun x => x.id == sid) = some s)
    (hvis : s.isVisible = false) :
    getSkillById sid st = (200, some s) ∧ s ∉ listSkills cat sortP st := by
  constructor
  · simp only [getSkillById, hfind]
  · intro hmem
    unfold listSkills at hmem
    have hmem2 := (mem_sortBy _ _ _).1 hmem
    have hpred := List.of_mem_filter hmem2
    simp only [Bool.and_eq_true] at hpred
    rw [hvis] at hpred
    exact absurd hpred.1 (by simp)

theorem hidden_skill_retrievable_by_id_witness :
    getSkillById "s2" stS = (200, some skHidden) ∧ skHidden ∉ listSkills none none stS :=
  hidden_skill_retrievable_by_id "s2" skHidden none none stS (by decide) (by decide)

theorem jsOr_self (d : String) : jsOr (some d) d = d := by
  simp only [jsOr]
  split <;> rfl

/-- C7: a PUT /skills/:id request that carries name or category fails with
the conflict status 400 and an unchanged store exactly when some other
stored skill (a different id) holds the prospective pair ignoring case;
updating a skill to its own unchanged pair succeeds with status 200. -/
theorem skill_update_prospective_conflict
    (u : User) (sid : String) (b : SkillUpdateBody) (st : List Skill) (skill : Skill)
    (hu : u.role = "admin")
    (hfind : st.find? (fun s => s.id == sid) = some skill)
    (hchange : (b.name.isSome || b.category.isSome) = true) :
    (((updateSkill u sid b st).1 = 400 ∧ (updateSkill u sid b st).2 = st) ↔
      ∃ s ∈ st, s.id ≠ sid ∧ ciEq s.name (jsOr b.name skill.name) = true ∧
        ciEq s.category (jsOr b.category skill.category) = true) ∧
    (b.name = some skill.name → b.category = some skill.category →
      (∀ s ∈ st, s.id ≠ sid →
        ¬(ciEq s.name skill.name = true ∧ ciEq s.category skill.category = true)) →
      (updateSkill u sid b st).1 = 200) := by
  have hmain : updateSkill u sid b st =
      (if st.any (fun s => s.id != sid && ciEq s.name (jsOr b.name skill.name)
          && ciEq s.category (jsOr b.category skill.category)) then (400, st)
       else (200, st.map (fun s => if s.id == sid then applyUpdate b skill else s))) := by
    unfold updateSkill
    rw [hu]
    simp only [bne_self_eq_false, Bool.false_eq_true, if_false, hfind, hchange, if_true]
  constructor
  · rw [hmain]
    by_cases hany : st.any (fun s => s.id != sid && ciEq s.name (jsOr b.name skill.name)
        && ciEq s.category (jsOr b.category skill.category)) = true
    · rw [if_pos hany]
      constructor
      · intro _
        obtain ⟨s, hs, hpred⟩ := List.any_eq_true.1 hany
        simp only [Bool.and_eq_true, bne_iff_ne] at hpred
        exact ⟨s, hs, hpred.1.1, hpred.1.2, hpred.2⟩
      · intro _
        exact ⟨rfl, rfl⟩
    · rw [if_neg hany]
      constructor
      · intro h
        exact absurd h.1 (by simp)
      · intro ⟨s, hs, hne, hn, hc⟩
        exact absurd (List.any_eq_true.2 ⟨s, hs, by
          simp only [Bool.and_eq_true, bne_iff_ne]
          exact ⟨⟨hne, hn⟩, hc⟩⟩) hany
  · intro hb1 hb2 hno
    rw [hmain]
    have hany : st.any (fun s => s.id != sid && ciEq s.name (jsOr b.name skill.name)
        && ciEq s.category (jsOr b.category skill.category)) = false := by
      rw [List.any_eq_false]
      intro s hs
      rw [hb1, hb2, jsOr_self, jsOr_self]
      simp only [Bool.and_eq_true, bne_iff_ne, not_and]
      intro hp
      exact fun hn => (hno s hs hp.1 ⟨hp.2, hn⟩).elim
    rw [if_neg (by rw [hany]; simp)]

theorem skill_update_prospective_conflict_witness :
    (updateSkill adminU "s2" { name := some "react" } stT).1 = 400 ∧
    (updateSkill adminU "s2" { name := some "Vue", category := some "frontend" } stT).1 = 200 :=
  ⟨((skill_update_prospective_conflict adminU "s2" { name := some "react" } stT skVue
      rfl (by decide) (by decide)).1.mpr
        ⟨skA, by decide, by decide, by decide, by decide⟩).1,
   (skill_update_prospective_conflict adminU "s2"
      { name := some "Vue", category := some "frontend" } stT skVue
      rfl (by decide) (by decide)).2 (by decide) (by decide) (by decide)⟩

theorem firstBulkError_isSome_of_bad {l : List BulkSkill}
    (hbad : ∃ s ∈ l, isFalsyStr s.name = true ∨ isFalsyStr s.category = true) :
    (firstBulkError l).isSome = true := by
  induction l with
  | nil =>
    obtain ⟨s, hs, -⟩ := hbad
    cases hs
  | cons a as ih =>
    unfold firstBulkError
    cases he : elemError a with
    | some e => rfl
    | none =>
      obtain ⟨s, hs, hbe⟩ := hbad
      rcases List.mem_cons.1 hs with rfl | hmem
      · exfalso
        unfold elemError at he
        rcases hbe with h1 | h1 <;> simp [h1] at he
      · exact ih ⟨s, hmem, hbe⟩

/-- C4: a bulk skill-creation batch containing an element whose name or
category is missing (JavaScript-falsy) is rejected with status 400 before
any insert, leaving the store unchanged. -/
theorem bulk_validation_rejects_whole_batch
    (u : User) (l : List BulkSkill) (newIds : List String) (st : List Skill)
    (hu : u.role = "admin")
    (hbad : ∃ s ∈ l, isFalsyStr s.name = true ∨ isFalsyStr s.category = true) :
    bulkCreateSkills u (some l) newIds st = (400, st) := by
  unfold bulkCreateSkills
  rw [hu]
  simp only [bne_self_eq_false, Bool.false_eq_true, if_false]
  by_cases hlen : (l.length == 0) = true
  · rw [if_pos hlen]
  · rw [if_neg hlen]
    obtain ⟨e, he⟩ := Option.isSome_iff_exists.1 (firstBulkError_isSome_of_bad hbad)
    rw [he]

theorem bulk_validation_rejects_whole_batch_witness :
    bulkCreateSkills adminU (some [bkGood, bkNoCat]) ["n1", "n2"] stS = (400, stS) :=
  bulk_validation_rejects_whole_batch adminU [bkGood, bkNoCat] ["n1", "n2"] stS
    rfl ⟨bkNoCat, by decide, by decide⟩

/-- C1: with no Authorization header every admin-only route answers 401,
but a valid non-admin token is rejected with 403 only by the skills.js
handlers; the projects.js admin handlers (create, update, delete, admin
list-all) never read the resolved role, so the same token reaches the
persistence operation: POST /projects answers 201 and persists, and
DELETE /projects/:id answers 200, where the claim requires 403. -/
theorem project_admin_role_gap :
    (postProjectsRoute demoTokens none true pNew []).1 = 401 ∧
    (putProjectRoute demoTokens none true pA.id pA stD).1 = 401 ∧
    (deleteProjectRoute demoTokens none true pA.id stD).1 = 401 ∧
    (adminAllProjectsRoute demoTokens none stD).1 = 401 ∧
    (postSkillsRoute demoTokens none { name := "Go", category := "backend" } "s9" stS).1 = 401 ∧
    (putSkillRoute demoTokens none "s1" {} stS).1 = 401 ∧
    (deleteSkillRoute demoTokens none "s1" stS).1 = 401 ∧
    (adminAllSkillsRoute demoTokens none stS).1 = 401 ∧
    (bulkSkillsRoute demoTokens none (some [bkGood]) ["n1"] stS).1 = 401 ∧
    (postSkillsRoute demoTokens (some "Bearer tok-user")
        { name := "Go", category := "backend" } "s9" stS).1 = 403 ∧
    (adminAllSkillsRoute demoTokens (some "Bearer tok-user") stS).1 = 403 ∧
    (bulkSkillsRoute demoTokens (some "Bearer tok-user") (some [bkGood]) ["n1"] stS).1 = 403 ∧
    postProjectsRoute demoTokens (some "Bearer tok-user") true pNew [] = (201, [pNew]) ∧
    (deleteProjectRoute demoTokens (some "Bearer tok-user") true pA.id stD).1 = 200 ∧
    (adminAllProjectsRoute demoTokens (some "Bearer tok-user") stD).1 = 200 := by
  decide

end Portfolio
